import Mathlib

/-!
Verification of the sundial application's solar-time model and of the
shadow-mapping shader logic.  The astronomy module (equation of time, hour
angle table, the two time derivations), the per-frame light setup of the
render loop, and the shadow-relevant parts of the GLSL shaders are embedded
as Lean functions over the real numbers, and the specification claims about
them are settled as theorems.
-/

namespace Sundial

noncomputable section

open Real

/-- Reference latitude constant of the astronomy module: 41.9 degrees north,
in radians. -/
def ROME_LATITUDE : ℝ := 41.9 * π / 180

/-- Simplified equation of time in minutes, from the function equationOfTime
of the astronomy module. -/
def equationOfTime (dayOfYear : ℝ) : ℝ :=
  let B := 2 * π * (dayOfYear - 81) / 365
  9.87 * Real.sin (2 * B) - 7.53 * Real.cos B - 1.5 * Real.sin B

/-- One entry of the sundial hour-angle table, mirroring the object literal
pushed by calculateSundialHourAngles. -/
structure HourData where
  hour : ℕ
  angle : ℝ
  displayHour : ℕ

/-- Hour-line angle table from calculateSundialHourAngles: a loop over
hour = 6 .. 18 pushing the angle (hour - 6) * 15 * pi / 180 + pi / 2.
The latitude parameter is accepted but never read, exactly as in the
source. -/
def calculateSundialHourAngles (latitude : ℝ) : List HourData :=
  (List.range 13).map (fun k =>
    let hour := 6 + k
    { hour := hour
      angle := ((hour : ℝ) - 6) * 15 * π / 180 + π / 2
      displayHour := hour })

/-- Result of the two time computations.  The source returns strings; the
constructors stand for the four possible string shapes, which are pairwise
distinct: Night for the night sentinel, NotVisible for the sun-not-visible
sentinel, OutOfRange for the out-of-hours sentinel, and Time h m for the
zero-padded HH:MM rendering of the integers h and m. -/
inductive TimeResult where
  | Night
  | NotVisible
  | OutOfRange
  | Time (hours : ℤ) (minutes : ℤ)
deriving DecidableEq

/-- Apparent time from solar azimuth and elevation in degrees, from the
function calculateTimeFromSun of the astronomy module. -/
def calculateTimeFromSun (azimuth elevation dayOfYear : ℝ) : TimeResult :=
  if elevation ≤ 0 then .Night
  else if azimuth > 270 ∨ azimuth < 90 then .NotVisible
  else
    let solarHour := (azimuth - 90) / 15 + 6
    let eot := equationOfTime dayOfYear
    let civilTime := solarHour - eot / 60
    let hours : ℤ := ⌊civilTime⌋
    let minutes : ℤ := ⌊(civilTime - (hours : ℝ)) * 60⌋
    if hours < 6 ∨ hours > 17 then .OutOfRange
    else .Time hours minutes

/-- A 3-component real vector, standing for a JS array of three numbers or a
GLSL vec3. -/
structure Vec3 where
  x : ℝ
  y : ℝ
  z : ℝ

/-- Two-argument arctangent with the convention of Math.atan2, modelled as
the complex argument of the point with abscissa x and ordinate y, whose
range is the half-open interval from minus pi (excluded) to pi. -/
def atan2 (y x : ℝ) : ℝ := Complex.arg ((x : ℂ) + (y : ℂ) * Complex.I)

/-- Shadow-derived time, from the function calculateShadowTime of the
astronomy module.  The nearest hour-line fold (the closestHour and minDiff
variables of the source) is computed and, exactly as in the source, never
used in the returned value. -/
def calculateShadowTime (lightDirection : Vec3) (dayOfYear : ℝ) : TimeResult :=
  if lightDirection.y ≥ -0.01 then .Night
  else
    let shadowAngle := atan2 lightDirection.x (-lightDirection.z)
    let hourAngles := calculateSundialHourAngles ROME_LATITUDE
    let closest : ℕ × ℝ := hourAngles.foldl
      (fun acc hourData =>
        let diff := |shadowAngle - hourData.angle|
        if diff < acc.2 then (hourData.hour, diff) else acc)
      (12, π)
    let exactHour := 12 - shadowAngle * 6 / (π / 2)
    let eot := equationOfTime dayOfYear
    let civilTime := exactHour - eot / 60
    let hours : ℤ := ⌊civilTime⌋
    let minutes : ℤ := ⌊(civilTime - (hours : ℝ)) * 60⌋
    if hours < 6 ∨ hours > 17 then .OutOfRange
    else .Time hours minutes

/-- Comparison function for claim C10: calculateShadowTime with the
nearest-hour table lookup removed and everything else unchanged. -/
def calculateShadowTimeNoLookup (lightDirection : Vec3) (dayOfYear : ℝ) : TimeResult :=
  if lightDirection.y ≥ -0.01 then .Night
  else
    let shadowAngle := atan2 lightDirection.x (-lightDirection.z)
    let exactHour := 12 - shadowAngle * 6 / (π / 2)
    let eot := equationOfTime dayOfYear
    let civilTime := exactHour - eot / 60
    let hours : ℤ := ⌊civilTime⌋
    let minutes : ℤ := ⌊(civilTime - (hours : ℝ)) * 60⌋
    if hours < 6 ∨ hours > 17 then .OutOfRange
    else .Time hours minutes

/-- Light direction built each frame in the render loop from the sun-angle
(azimuth) and sun-height (elevation) slider values, both in degrees. -/
def lightDirection (sunAngle sunHeight : ℝ) : Vec3 :=
  let azimuthRad := sunAngle * π / 180
  let elevationRad := sunHeight * π / 180
  ⟨Real.sin azimuthRad * Real.cos elevationRad,
   -Real.sin elevationRad,
   Real.cos azimuthRad * Real.cos elevationRad⟩

/-- Standoff distance of the shadow-light eye point, from the render loop. -/
def lightDistance : ℝ := 30

/-- Light eye position used to build the shadow view matrix, from the render
loop: the position opposite the light direction at distance lightDistance,
with the vertical component lifted and clamped from below by 5. -/
def lightPos (lightDirection : Vec3) : Vec3 :=
  ⟨-lightDirection.x * lightDistance,
   max 5 (|lightDirection.y| * lightDistance + 5),
   -lightDirection.z * lightDistance⟩

/-- A 4-component real vector, a GLSL vec4. -/
structure Vec4 where
  x : ℝ
  y : ℝ
  z : ℝ
  w : ℝ

/-- A 4 by 4 matrix stored as 16 entries in column-major order, the layout of
the Float32Array matrices of the source (entries e12, e13, e14 hold the
translation). -/
structure Mat4 where
  e0 : ℝ
  e1 : ℝ
  e2 : ℝ
  e3 : ℝ
  e4 : ℝ
  e5 : ℝ
  e6 : ℝ
  e7 : ℝ
  e8 : ℝ
  e9 : ℝ
  e10 : ℝ
  e11 : ℝ
  e12 : ℝ
  e13 : ℝ
  e14 : ℝ
  e15 : ℝ

/-- Matrix times column vector, the GLSL product of a column-major mat4 with
a vec4. -/
def mulVec4 (M : Mat4) (v : Vec4) : Vec4 :=
  ⟨M.e0 * v.x + M.e4 * v.y + M.e8 * v.z + M.e12 * v.w,
   M.e1 * v.x + M.e5 * v.y + M.e9 * v.z + M.e13 * v.w,
   M.e2 * v.x + M.e6 * v.y + M.e10 * v.z + M.e14 * v.w,
   M.e3 * v.x + M.e7 * v.y + M.e11 * v.z + M.e15 * v.w⟩

/-- The identity 4 by 4 matrix. -/
def identityMat4 : Mat4 :=
  ⟨1, 0, 0, 0, 0, 1, 0, 0, 0, 0, 1, 0, 0, 0, 0, 1⟩

/-- Column-major translation by one unit along x, a concrete non-identity
model matrix of the kind the render loop builds for grass blades, clouds and
the sun sphere. -/
def translateX1 : Mat4 :=
  ⟨1, 0, 0, 0, 0, 1, 0, 0, 0, 0, 1, 0, 1, 0, 0, 1⟩

/-- Varying v_shadowCoord as computed in the vertex shader: the light
view-projection matrix applied to the raw attribute position a_position with
homogeneous coordinate 1 (not to the model-transformed world position). -/
def vShadowCoord (u_lightViewProjectionMatrix : Mat4) (a_position : Vec3) : Vec4 :=
  mulVec4 u_lightViewProjectionMatrix ⟨a_position.x, a_position.y, a_position.z, 1⟩

/-- Varying v_worldPos as computed in the vertex shader: the xyz part of the
model matrix applied to the attribute position. -/
def vWorldPos (u_modelMatrix : Mat4) (a_position : Vec3) : Vec3 :=
  let p := mulVec4 u_modelMatrix ⟨a_position.x, a_position.y, a_position.z, 1⟩
  ⟨p.x, p.y, p.z⟩

/-- Written from the words of the spec for claim C2: the shadow-lookup clip
coordinate the spec prescribes, namely the light-space transform applied to
the fragment's world position P (the model-transformed vertex position). -/
def specShadowClip (u_lightViewProjectionMatrix u_modelMatrix : Mat4)
    (a_position : Vec3) : Vec4 :=
  let P := vWorldPos u_modelMatrix a_position
  mulVec4 u_lightViewProjectionMatrix ⟨P.x, P.y, P.z, 1⟩

/-- Normalized device coordinates of a clip-space vector: xyz divided by w. -/
def ndcOf (clip : Vec4) : Vec3 :=
  ⟨clip.x / clip.w, clip.y / clip.w, clip.z / clip.w⟩

/-- Shadow-map uv coordinates of a clip-space vector: the ndc xy components
mapped from the interval [-1, 1] to [0, 1]. -/
def uvOf (clip : Vec4) : ℝ × ℝ :=
  ((ndcOf clip).x * 0.5 + 0.5, (ndcOf clip).y * 0.5 + 0.5)

/-- Componentwise difference of two vec3 values. -/
def sub3 (a b : Vec3) : Vec3 := ⟨a.x - b.x, a.y - b.y, a.z - b.z⟩

/-- Dot product of two vec3 values. -/
def dot3 (a b : Vec3) : ℝ := a.x * b.x + a.y * b.y + a.z * b.z

/-- GLSL normalize of a vec3: the vector divided by its Euclidean length. -/
def normalize3 (v : Vec3) : Vec3 :=
  let len := Real.sqrt (dot3 v v)
  ⟨v.x / len, v.y / len, v.z / len⟩

/-- GLSL mix: linear interpolation from a to b with weight t. -/
def mix (a b t : ℝ) : ℝ := a * (1 - t) + b * t

/-- Reciprocal of the fixed 2048-texel shadow-map resolution, the texelSize
of the fragment shader. -/
def texelSize : ℝ := 1 / 2048

/-- The nine percentage-closer-filtering tap offsets of the fragment shader,
the pairs (x, y) for x and y each ranging over -1, 0, 1 in loop order. -/
def pcfTaps : List (ℝ × ℝ) :=
  [(-1, -1), (-1, 0), (-1, 1), (0, -1), (0, 0), (0, 1), (1, -1), (1, 0), (1, 1)]

/-- The sampleShadowMap function of the fragment shader.  The depth texture
is modelled as an arbitrary lookup function from uv coordinates to the
stored depth (the red channel read by texture2D), so the theorems below
quantify over every possible depth-map content.  The uniform light position
and the varyings v_worldPos and v_normal that the function reads are passed
as arguments. -/
def sampleShadowMap (shadowMap : ℝ → ℝ → ℝ)
    (u_lightPosition v_worldPos v_normal : Vec3) (shadowCoord : Vec4) : ℝ :=
  let shadowCoordNorm : Vec3 :=
    ⟨(shadowCoord.x / shadowCoord.w) * 0.5 + 0.5,
     (shadowCoord.y / shadowCoord.w) * 0.5 + 0.5,
     (shadowCoord.z / shadowCoord.w) * 0.5 + 0.5⟩
  if shadowCoordNorm.x < 0 ∨ shadowCoordNorm.x > 1 ∨
     shadowCoordNorm.y < 0 ∨ shadowCoordNorm.y > 1 ∨
     shadowCoordNorm.z < 0 ∨ shadowCoordNorm.z > 1 then 1
  else
    let shadowDepth := shadowMap shadowCoordNorm.x shadowCoordNorm.y
    let currentDepth := shadowCoordNorm.z
    let lightDir := normalize3 (sub3 u_lightPosition v_worldPos)
    let normal := normalize3 v_normal
    let bias := max (0.005 * (1 - dot3 normal lightDir)) 0.001
    let shadow := (pcfTaps.map (fun p =>
      let pcfDepth := shadowMap (shadowCoordNorm.x + p.1 * texelSize)
                                (shadowCoordNorm.y + p.2 * texelSize)
      if currentDepth - bias > pcfDepth then (0 : ℝ) else 1)).sum / 9
    mix 0.3 1.0 shadow

/-- Shadow factor computed in the fragment shader main function: it starts at
1 and sampleShadowMap runs only when the u_enableShadows uniform exceeds
0.5. -/
def fragmentShadowFactor (u_enableShadows : ℝ) (shadowMap : ℝ → ℝ → ℝ)
    (u_lightPosition v_worldPos v_normal : Vec3) (v_shadowCoordArg : Vec4) : ℝ :=
  if u_enableShadows > 0.5 then
    sampleShadowMap shadowMap u_lightPosition v_worldPos v_normal v_shadowCoordArg
  else 1

/-- Value the renderer writes into the u_enableShadows float uniform from the
boolean enableShadows flag in setUniforms. -/
def enableShadowsUniform (enableShadows : Bool) : ℝ :=
  if enableShadows then 1 else 0

/-- Claim C6: for every azimuth and dayOfYear, calculateTimeFromSun returns
the Night sentinel whenever elevation is at most 0; the boundary elevation 0
is included, and the check precedes (and so takes precedence over) the
azimuth and out-of-range checks, which are unconstrained here. -/
theorem timeFromSun_night_of_nonpos_elevation (azimuth elevation dayOfYear : ℝ)
    (h : elevation ≤ 0) :
    calculateTimeFromSun azimuth elevation dayOfYear = TimeResult.Night := by
  unfold calculateTimeFromSun
  rw [if_pos h]

/-- Witness for claim C6 at azimuth 80, the boundary elevation 0 and day
100. -/
theorem timeFromSun_night_of_nonpos_elevation_witness :
    (0 : ℝ) ≤ 0 ∧ calculateTimeFromSun 80 0 100 = TimeResult.Night :=
  ⟨le_refl 0, timeFromSun_night_of_nonpos_elevation 80 0 100 (le_refl 0)⟩

/-- Claim C8: for every azimuth and elevation, the vertical component of the
light eye position built in the render loop is at least 5, because the
vertical lift is clamped from below by 5. -/
theorem lightPos_y_ge_five (sunAngle sunHeight : ℝ) :
    5 ≤ (lightPos (lightDirection sunAngle sunHeight)).y :=
  le_max_left _ _

/-- Claim C10: calculateShadowTime is extensionally equal to the variant with
the nearest-hour table lookup removed; the closestHour fold never influences
the returned value. -/
theorem calculateShadowTime_eq_noLookup (ld : Vec3) (dayOfYear : ℝ) :
    calculateShadowTime ld dayOfYear = calculateShadowTimeNoLookup ld dayOfYear :=
  rfl

/-- Claim C4: with the u_enableShadows flag off (the renderer writes 0 into
the uniform), the fragment shader's shadow factor is 1 for every fragment and
every depth-map content; sampleShadowMap is never consulted. -/
theorem fragmentShadowFactor_one_when_shadows_disabled
    (shadowMap : ℝ → ℝ → ℝ) (u_lightPosition v_worldPos v_normal : Vec3)
    (coord : Vec4) :
    fragmentShadowFactor (enableShadowsUniform false) shadowMap u_lightPosition
      v_worldPos v_normal coord = 1 := by
  unfold fragmentShadowFactor enableShadowsUniform
  norm_num

/-- Claim C7: for every dayOfYear in [1, 365], the equation of time stays
within 20 minutes in absolute value (the triangle inequality gives the even
stronger bound 9.87 + 7.53 + 1.5 = 18.9). -/
theorem abs_equationOfTime_le_twenty (dayOfYear : ℝ)
    (h1 : 1 ≤ dayOfYear) (h2 : dayOfYear ≤ 365) :
    |equationOfTime dayOfYear| ≤ 20 := by
  unfold equationOfTime
  dsimp only
  have hs1 := Real.neg_one_le_sin (2 * (2 * π * (dayOfYear - 81) / 365))
  have hs2 := Real.sin_le_one (2 * (2 * π * (dayOfYear - 81) / 365))
  have hc1 := Real.neg_one_le_cos (2 * π * (dayOfYear - 81) / 365)
  have hc2 := Real.cos_le_one (2 * π * (dayOfYear - 81) / 365)
  have hs3 := Real.neg_one_le_sin (2 * π * (dayOfYear - 81) / 365)
  have hs4 := Real.sin_le_one (2 * π * (dayOfYear - 81) / 365)
  rw [abs_le]
  constructor <;> nlinarith

/-- Witness for claim C7 at day 81, where the angle B vanishes. -/
theorem abs_equationOfTime_le_twenty_witness :
    (1 : ℝ) ≤ 81 ∧ (81 : ℝ) ≤ 365 ∧ |equationOfTime 81| ≤ 20 :=
  ⟨by norm_num, by norm_num,
   abs_equationOfTime_le_twenty 81 (by norm_num) (by norm_num)⟩

/-- Claim C9: the hour-angle table is independent of the latitude argument
(any two latitudes give equal tables), and it consists of exactly the 13
entries for hours 6 through 18 whose angles are (hour - 6) * 15 * pi / 180
+ pi / 2, listed here in lowest terms as pi / 2 plus (hour - 6) * pi / 12. -/
theorem calculateSundialHourAngles_table (lat lat' : ℝ) :
    calculateSundialHourAngles lat = calculateSundialHourAngles lat' ∧
    (calculateSundialHourAngles lat).map HourData.hour =
      [6, 7, 8, 9, 10, 11, 12, 13, 14, 15, 16, 17, 18] ∧
    (calculateSundialHourAngles lat).map HourData.angle =
      [π / 2, 7 * π / 12, 2 * π / 3, 3 * π / 4, 5 * π / 6, 11 * π / 12, π,
       13 * π / 12, 7 * π / 6, 5 * π / 4, 4 * π / 3, 17 * π / 12, 3 * π / 2] := by
  have hr : List.range 13 = [0, 1, 2, 3, 4, 5, 6, 7, 8, 9, 10, 11, 12] := rfl
  refine ⟨rfl, rfl, ?_⟩
  simp only [calculateSundialHourAngles, hr, List.map_cons, List.map_nil,
    List.cons.injEq, and_true]
  push_cast
  norm_num
  constructor
  · ring
  constructor
  · ring
  constructor
  · ring
  constructor
  · ring
  constructor
  · ring
  constructor
  · ring
  constructor
  · ring
  constructor
  · ring
  constructor
  · ring
  constructor
  · ring
  constructor
  · ring
  · ring

/-- Counterexample to claim C5 as stated: at the boundary azimuth 90 (with
elevation 45 and day 1) calculateTimeFromSun does not return the NotVisible
sentinel, because the source guards with strict comparisons azimuth > 270
and azimuth < 90. -/
theorem timeFromSun_boundary_azimuth_not_notVisible :
    calculateTimeFromSun 90 45 1 ≠ TimeResult.NotVisible := by
  unfold calculateTimeFromSun
  rw [if_neg (by norm_num : ¬(45 : ℝ) ≤ 0),
      if_neg (by push_neg; norm_num : ¬((90 : ℝ) > 270 ∨ (90 : ℝ) < 90))]
  dsimp only
  split <;> simp

/-- Claim C5 as amended: for positive elevation, calculateTimeFromSun returns
the NotVisible sentinel exactly when the azimuth lies outside the closed
interval [90, 270]; azimuths 80 and 280 give NotVisible, while the boundary
azimuths 90 and 270 fall through to the time computation. -/
theorem timeFromSun_notVisible_iff (azimuth elevation dayOfYear : ℝ)
    (h : 0 < elevation) :
    (calculateTimeFromSun azimuth elevation dayOfYear = TimeResult.NotVisible ↔
      (azimuth > 270 ∨ azimuth < 90)) := by
  unfold calculateTimeFromSun
  rw [if_neg (not_le.mpr h)]
  by_cases haz : azimuth > 270 ∨ azimuth < 90
  · rw [if_pos haz]
    exact ⟨fun _ => haz, fun _ => rfl⟩
  · rw [if_neg haz]
    refine ⟨fun hEq => ?_, fun hc => absurd hc haz⟩
    exfalso
    revert hEq
    dsimp only
    split <;> simp

/-- Witness for the amended claim C5 at azimuth 280, elevation 45, day 1,
where the sentinel is returned. -/
theorem timeFromSun_notVisible_iff_witness :
    (0 : ℝ) < 45 ∧
    (calculateTimeFromSun 280 45 1 = TimeResult.NotVisible ↔
      ((280 : ℝ) > 270 ∨ (280 : ℝ) < 90)) :=
  ⟨by norm_num, timeFromSun_notVisible_iff 280 45 1 (by norm_num)⟩

/-- Counterexample to claim C2 as stated: with the identity light-space
transform, a model matrix translating by one unit along x, and the vertex at
the origin, the uv coordinate computed by the vertex shader differs from the
uv coordinate of the spec's world-position formula, because the shader
applies the light transform to the raw attribute position. -/
theorem vShadowCoord_ne_spec_at_translated_model :
    uvOf (vShadowCoord identityMat4 ⟨0, 0, 0⟩) ≠
      uvOf (specShadowClip identityMat4 translateX1 ⟨0, 0, 0⟩) := by
  simp only [uvOf, ndcOf, vShadowCoord, specShadowClip, vWorldPos, mulVec4,
    identityMat4, translateX1, Prod.mk.injEq, ne_eq, not_and]
  norm_num

/-- Claim C2 as amended: the vertex shader applies the light-space transform
to the raw attribute position, so the shadow-lookup clip coordinate agrees
with the spec's light-transform-of-world-position formula exactly for
vertices fixed by the model matrix, in particular for every mesh drawn with
the identity model matrix (the ground plane, gnomon and hour lines of the
main scene), and not for meshes with a translating or scaling model matrix. -/
theorem vShadowCoord_eq_spec_of_model_fixes_vertex
    (L M : Mat4) (a : Vec3)
    (h : mulVec4 M ⟨a.x, a.y, a.z, 1⟩ = ⟨a.x, a.y, a.z, 1⟩) :
    vShadowCoord L a = specShadowClip L M a := by
  unfold specShadowClip vWorldPos vShadowCoord
  rw [h]

/-- Witness for the amended claim C2: the identity model matrix fixes the
vertex (1, 2, 3), and there the shader coordinate and the spec coordinate
agree for the translating light transform. -/
theorem vShadowCoord_eq_spec_witness :
    mulVec4 identityMat4 ⟨(1 : ℝ), 2, 3, 1⟩ = ⟨1, 2, 3, 1⟩ ∧
    vShadowCoord translateX1 ⟨1, 2, 3⟩ =
      specShadowClip translateX1 identityMat4 ⟨1, 2, 3⟩ :=
  ⟨by norm_num [mulVec4, identityMat4],
   vShadowCoord_eq_spec_of_model_fixes_vertex translateX1 identityMat4 ⟨1, 2, 3⟩
     (by norm_num [mulVec4, identityMat4])⟩

/-- Claim C3 as amended: for every depth-map content and every shadow
coordinate whose uv coordinates fall outside [0, 1] or whose window-space
depth ndc.z * 0.5 + 0.5 falls outside [0, 1] (equivalently, ndc.z outside
[-1, 1]), sampleShadowMap returns exactly 1; such points are never
darkened. -/
theorem sampleShadowMap_one_outside_bounds
    (shadowMap : ℝ → ℝ → ℝ) (lp wp n : Vec3) (coord : Vec4)
    (h : (coord.x / coord.w) * 0.5 + 0.5 < 0 ∨ (coord.x / coord.w) * 0.5 + 0.5 > 1 ∨
         (coord.y / coord.w) * 0.5 + 0.5 < 0 ∨ (coord.y / coord.w) * 0.5 + 0.5 > 1 ∨
         (coord.z / coord.w) * 0.5 + 0.5 < 0 ∨ (coord.z / coord.w) * 0.5 + 0.5 > 1) :
    sampleShadowMap shadowMap lp wp n coord = 1 := by
  unfold sampleShadowMap
  dsimp only
  rw [if_pos h]

/-- Witness for the amended claim C3: a clip coordinate whose u coordinate is
5.5 is out of bounds and yields shadow factor 1 for the all-zero depth map. -/
theorem sampleShadowMap_one_outside_bounds_witness :
    (((10 : ℝ) / 1) * 0.5 + 0.5 > 1 ∨ False) ∧
    sampleShadowMap (fun _ _ => 0) ⟨0, 1, 0⟩ ⟨0, 0, 0⟩ ⟨0, 1, 0⟩ ⟨10, 0, 0, 1⟩ = 1 :=
  ⟨Or.inl (by norm_num),
   sampleShadowMap_one_outside_bounds (fun _ _ => 0) ⟨0, 1, 0⟩ ⟨0, 0, 0⟩ ⟨0, 1, 0⟩
     ⟨10, 0, 0, 1⟩ (by norm_num)⟩

/-- Counterexample to claim C3 as stated: the clip coordinate (0, 0, -1/2, 1)
has ndc depth -1/2, outside [0, 1], yet with an all-zero depth map (and a
vertical light over a horizontal surface) sampleShadowMap proceeds to sample
and returns the darkened factor 3/10, not 1: the source bound-checks the
window-space depth ndc.z * 0.5 + 0.5, not ndc.z itself. -/
theorem sampleShadowMap_darkens_at_negative_ndc_depth :
    (ndcOf ⟨0, 0, -(1 / 2), 1⟩).z < 0 ∧
    sampleShadowMap (fun _ _ => 0) ⟨0, 1, 0⟩ ⟨0, 0, 0⟩ ⟨0, 1, 0⟩ ⟨0, 0, -(1 / 2), 1⟩ =
      3 / 10 ∧
    (3 / 10 : ℝ) ≠ 1 := by
  refine ⟨by norm_num [ndcOf], ?_, by norm_num⟩
  unfold sampleShadowMap
  dsimp only
  rw [if_neg (by norm_num)]
  have hnorm : normalize3 ⟨(0 : ℝ), 1, 0⟩ = ⟨0, 1, 0⟩ := by
    unfold normalize3 dot3
    norm_num
  have hsub : sub3 ⟨(0 : ℝ), 1, 0⟩ ⟨0, 0, 0⟩ = ⟨0, 1, 0⟩ := by
    unfold sub3
    norm_num
  rw [hsub, hnorm]
  simp only [pcfTaps, texelSize, mix, dot3, List.map_cons, List.map_nil,
    List.sum_cons, List.sum_nil]
  norm_num

/-- For azimuths strictly between 90 and 270 degrees the shadow angle
atan2 of (sin azimuth * c, -(cos azimuth * c)) with any positive scale c
equals pi minus the azimuth in radians. -/
theorem atan2_azimuth (az : ℝ) (h1 : 90 < az) (h2 : az < 270) {c : ℝ} (hc : 0 < c) :
    atan2 (Real.sin (az * π / 180) * c) (-(Real.cos (az * π / 180) * c)) =
      π - az * π / 180 := by
  have hpi := Real.pi_pos
  have hlo : π / 2 < az * π / 180 := by nlinarith
  have hhi : az * π / 180 < 3 * π / 2 := by nlinarith
  unfold atan2
  have hre :
      ((-(Real.cos (az * π / 180) * c) : ℝ) : ℂ) +
        ((Real.sin (az * π / 180) * c : ℝ) : ℂ) * Complex.I =
      (c : ℂ) * (Complex.cos ((π - az * π / 180 : ℝ) : ℂ) +
        Complex.sin ((π - az * π / 180 : ℝ) : ℂ) * Complex.I) := by
    rw [← Complex.ofReal_cos, ← Complex.ofReal_sin, Real.cos_pi_sub, Real.sin_pi_sub]
    push_cast
    ring
  rw [hre,
    Complex.arg_mul_cos_add_sin_mul_I hc
      (Set.mem_Ioc.mpr ⟨by linarith, by linarith⟩)]

/-- For elevations strictly between 5 and 85 degrees the sine of the
elevation exceeds 0.01, so the shadow-time night guard on the vertical light
component does not fire. -/
theorem sin_elevation_gt (el : ℝ) (h5 : 5 < el) (h85 : el < 85) :
    0.01 < Real.sin (el * π / 180) := by
  have hpi1 : (3.14 : ℝ) < π := Real.pi_gt_d2
  have hpi2 : π < 3.15 := Real.pi_lt_d2
  have h1 : (0 : ℝ) < 5 * π / 180 := by nlinarith
  have h2 : 5 * π / 180 < el * π / 180 := by nlinarith
  have h3 : el * π / 180 ≤ π / 2 := by nlinarith
  have key : 0.01 < Real.sin (5 * π / 180) := by
    have hx1 : 5 * π / 180 ≤ 1 := by nlinarith
    have hcube := Real.sin_gt_sub_cube h1 hx1
    nlinarith [hcube, sq_nonneg (5 * π / 180), mul_pos h1 h1]
  have hmono :
      Real.sin (5 * π / 180) < Real.sin (el * π / 180) :=
    Real.strictMonoOn_sin
      (Set.mem_Icc.mpr ⟨by nlinarith, by nlinarith⟩)
      (Set.mem_Icc.mpr ⟨by nlinarith, h3⟩) h2
  linarith

/-- For elevations strictly between 0 and 90 degrees the cosine of the
elevation is positive. -/
theorem cos_elevation_pos (el : ℝ) (h0 : 0 < el) (h90 : el < 90) :
    0 < Real.cos (el * π / 180) := by
  have hpi := Real.pi_pos
  exact Real.cos_pos_of_mem_Ioo (Set.mem_Ioo.mpr ⟨by nlinarith, by nlinarith⟩)

/-- Claim C1: for every azimuth in (90, 270), elevation in (5, 85) and every
dayOfYear, feeding the render loop's light direction into
calculateShadowTime returns exactly the same result as calculateTimeFromSun
on the original angles; over exact reals the two independent time
derivations agree not merely to within 2 minutes but on the nose, since the
shadow angle atan2(x, -z) recovers pi minus the azimuth and the continuous
hour estimate 12 - shadowAngle * 6 / (pi / 2) collapses to the solar hour
(azimuth - 90) / 15 + 6. -/
theorem shadowTime_roundtrip_agrees_timeFromSun (az el dayOfYear : ℝ)
    (h90 : 90 < az) (h270 : az < 270) (h5 : 5 < el) (h85 : el < 85) :
    calculateShadowTime (lightDirection az el) dayOfYear =
      calculateTimeFromSun az el dayOfYear := by
  have hpi := Real.pi_pos
  have hc : 0 < Real.cos (el * π / 180) :=
    cos_elevation_pos el (by linarith) (by linarith)
  have hs : 0.01 < Real.sin (el * π / 180) := sin_elevation_gt el h5 h85
  have hkey :
      atan2 (Real.sin (az * π / 180) * Real.cos (el * π / 180))
        (-(Real.cos (az * π / 180) * Real.cos (el * π / 180))) =
      π - az * π / 180 := atan2_azimuth az h90 h270 hc
  have harith : 12 - (π - az * π / 180) * 6 / (π / 2) = (az - 90) / 15 + 6 := by
    field_simp
    ring
  unfold calculateShadowTime calculateTimeFromSun lightDirection
  dsimp only
  rw [if_neg (by push_neg; linarith :
        ¬-Real.sin (el * π / 180) ≥ -0.01),
      if_neg (by linarith : ¬el ≤ 0),
      if_neg (by push_neg; exact ⟨by linarith, by linarith⟩ :
        ¬(az > 270 ∨ az < 90))]
  rw [hkey, harith]

/-- Witness for claim C1 at azimuth 180 (solar noon side), elevation 45 and
day 172. -/
theorem shadowTime_roundtrip_agrees_timeFromSun_witness :
    ((90 : ℝ) < 180 ∧ (180 : ℝ) < 270 ∧ (5 : ℝ) < 45 ∧ (45 : ℝ) < 85) ∧
    calculateShadowTime (lightDirection 180 45) 172 =
      calculateTimeFromSun 180 45 172 :=
  ⟨⟨by norm_num, by norm_num, by norm_num, by norm_num⟩,
   shadowTime_roundtrip_agrees_timeFromSun 180 45 172 (by norm_num) (by norm_num)
     (by norm_num) (by norm_num)⟩

end

end Sundial
